import Mathlib

/-!
Shallow embedding of the inventory alert engine of this repository
(`server/services/alerts.ts`, `server/services/email.ts`, the storage
queries of `server/storage.ts` it calls, and the column model of
`shared/schema.ts`).

Modelling conventions:
* Database timestamps and JavaScript `Date` values are modelled by `Time`,
  which carries the epoch milliseconds (`getTime()` / `Date.now()`) and the
  local calendar components (`getDate()` / `getMonth()` / `getFullYear()`).
* Nullable columns are `Option`s, mirroring `shared/schema.ts` (a column
  without `.notNull()` is nullable).
* JavaScript number division appearing in the dedup / weekly-window guards
  is modelled by exact division in `ℚ`.
* Each fallible collaborator call (SQL query, log insert, …) takes an error
  injection (`Option String`): `some e` makes that call throw `e`, `none`
  lets it perform its effect.  The SendGrid mail transport never throws
  (`sendEmail` catches internally and returns a boolean), so its outcome is
  injected as a `Bool`.
* A call's outcome is a `DbResult`: `ok` or `error`, each carrying the
  world state at that point (a thrown exception does not roll back the
  mutations already performed).
-/

namespace KorAlerts

/-- A JavaScript `Date` / SQL timestamp: epoch milliseconds together with its
local calendar components. -/
structure Time where
  ms : Int
  day : Int
  month : Int
  year : Int
deriving DecidableEq, Repr

/-- The columns of the `products` table used by the alert engine
(`shared/schema.ts`): `stock` (`'Disponible' | 'Sin Stock' | 'Consultar'`),
`stock_cantidad`, `low_stock_threshold`, `low_stock_notified_at` are all
nullable. -/
structure Product where
  id : String
  sku : String
  modelo : Option String
  descripcion : Option String
  familia : Option String
  stock : Option String
  stockCantidad : Option Int
  lowStockThreshold : Option Int
  lowStockNotifiedAt : Option Time
deriving DecidableEq, Repr

/-- The singleton `alert_config` row (`shared/schema.ts`): every column apart
from the id is nullable. -/
structure AlertConfig where
  defaultThreshold : Option Int
  summaryFrequency : Option String
  recipients : Option (List String)
  lastDailyDigestAt : Option Time
  lastWeeklyDigestAt : Option Time
  isEnabled : Option Bool
  fromEmail : Option String
  updatedAt : Option Time
deriving DecidableEq, Repr

/-- A row of the append-only `alert_notifications` table as written by
`storage.createAlertNotification`. -/
structure NotificationEntry where
  productId : Option String
  type : String
  recipients : List String
  subject : String
  body : String
  status : String
  error : Option String
deriving DecidableEq, Repr

/-- One message handed to the mail transport (`sgMail.send` in
`server/services/email.ts`). -/
structure EmailMsg where
  toAddrs : List String
  fromAddr : String
  subject : String
  html : String
deriving DecidableEq, Repr

/-- The observable state: the `products` table, the singleton `alert_config`
row (if present), the append-only `alert_notifications` log, and the list of
messages handed to the mail transport. -/
structure World where
  products : List Product
  config : Option AlertConfig
  notifications : List NotificationEntry
  outbox : List EmailMsg
deriving DecidableEq, Repr

/-- Result of a fallible stateful call: both outcomes carry the state at
that point (a throw does not roll back prior mutations). -/
inductive DbResult (α : Type) where
  | ok : α → World → DbResult α
  | error : String → World → DbResult α
deriving DecidableEq, Repr

/-- The state carried by a `DbResult`, whichever the outcome. -/
def DbResult.state : DbResult α → World
  | .ok _ w => w
  | .error _ w => w

/-- Whether a `DbResult` is a normal (non-throwing) return. -/
def DbResult.isOk : DbResult α → Bool
  | .ok _ _ => true
  | .error _ _ => false

/-! ## Pure storage queries (`server/storage.ts`) -/

/-- The SQL low-stock predicate of `storage.getLowStockProducts`:
`(stock_cantidad < COALESCE(low_stock_threshold, defaultThreshold))
 OR (stock = 'Sin Stock' OR stock = 'Consultar')`.
A `NULL` `stock_cantidad` makes the comparison `NULL`, hence not satisfied;
a `NULL` `stock` fails both equality tests. -/
def lowStockWhere (defaultThreshold : Int) (p : Product) : Bool :=
  (match p.stockCantidad with
   | some q => decide (q < p.lowStockThreshold.getD defaultThreshold)
   | none => false)
  || (p.stock == some "Sin Stock" || p.stock == some "Consultar")

/-- The `ORDER BY stock_cantidad ASC, sku ASC` comparison of
`storage.getLowStockProducts`; PostgreSQL sorts `NULL` last under `ASC`. -/
def lowStockOrder (p q : Product) : Bool :=
  match p.stockCantidad, q.stockCantidad with
  | none, none => decide (p.sku ≤ q.sku)
  | none, some _ => false
  | some _, none => true
  | some a, some b => a < b || (a == b && decide (p.sku ≤ q.sku))

/-- `storage.getLowStockProducts(threshold?)`: the effective default
threshold is `threshold || 10` (so an absent or zero argument falls back to
10), then the SQL filter with `ORDER BY stock_cantidad ASC, sku ASC` (the
ORDER BY is modelled by a stable sort on the comparison key). -/
def getLowStockProducts (threshold : Option Int) (products : List Product) :
    List Product :=
  let defaultThreshold : Int :=
    match threshold with
    | some t => if t = 0 then 10 else t
    | none => 10
  List.insertionSort (fun p q => lowStockOrder p q = true)
    (products.filter (lowStockWhere defaultThreshold))

/-- The record returned by `storage.getProductStats`. -/
structure ProductStats where
  totalProductos : Nat
  totalFamilias : Nat
  enStock : Nat
  sinStock : Nat
deriving DecidableEq, Repr

/-- `storage.getProductStats`: total row count, distinct non-null `familia`
count, count of rows with `stock = 'Disponible'`, and
`sinStock = totalProductos - enStock`. -/
def getProductStats (products : List Product) : ProductStats :=
  let totalProductos := products.length
  let enStock := (products.filter (fun p => p.stock == some "Disponible")).length
  { totalProductos := totalProductos
    totalFamilias := (products.filterMap (fun p => p.familia)).dedup.length
    enStock := enStock
    sinStock := totalProductos - enStock }

/-! ## Fallible collaborator calls -/

/-- The default `alert_config` row inserted by `storage.getAlertConfig` when
none exists: the INSERT sets `id=1, default_threshold=10,
summary_frequency='daily', is_enabled=true`; the remaining columns take their
schema defaults (`from_email` defaults to `'alertas@kor-sistema.com'`,
`recipients` and the digest timestamps stay `NULL`). -/
def defaultAlertConfig (now : Time) : AlertConfig :=
  { defaultThreshold := some 10
    summaryFrequency := some "daily"
    recipients := none
    lastDailyDigestAt := none
    lastWeeklyDigestAt := none
    isEnabled := some true
    fromEmail := some "alertas@kor-sistema.com"
    updatedAt := some now }

/-- `storage.getAlertConfig`: `SELECT * FROM alert_config WHERE id = 1`,
creating the default row first when absent. -/
def getAlertConfig (inj : Option String) (now : Time) (w : World) :
    DbResult (Option AlertConfig) :=
  match inj with
  | some e => .error e w
  | none =>
    match w.config with
    | some c => .ok (some c) w
    | none =>
      let c := defaultAlertConfig now
      .ok (some c) { w with config := some c }

/-- `storage.updateProductNotificationTime(productId)`:
`UPDATE products SET low_stock_notified_at = NOW() WHERE id = productId`
(the SQL `NOW()` is the current tick). -/
def updateProductNotificationTime (inj : Option String) (now : Time)
    (productId : String) (w : World) : DbResult Unit :=
  match inj with
  | some e => .error e w
  | none =>
    .ok () { w with
      products := w.products.map (fun p =>
        if p.id = productId then { p with lowStockNotifiedAt := some now } else p) }

/-- `storage.createAlertNotification`: INSERT one row into the append-only
`alert_notifications` table. -/
def createAlertNotification (inj : Option String) (n : NotificationEntry)
    (w : World) : DbResult NotificationEntry :=
  match inj with
  | some e => .error e w
  | none => .ok n { w with notifications := w.notifications ++ [n] }

/-- The digest frequency argument, `'daily' | 'weekly'` in the source. -/
inductive Frequency where
  | daily
  | weekly
deriving DecidableEq, Repr

/-- `storage.updateAlertConfig({ lastDailyDigestAt: new Date() })` (resp.
`lastWeeklyDigestAt`) as invoked by `sendDigest`: updates the single digest
timestamp of the singleton row and its `updated_at = NOW()`; with no row
present the UPDATE matches nothing. -/
def updateAlertConfigDigest (inj : Option String) (freq : Frequency)
    (now : Time) (w : World) : DbResult Unit :=
  match inj with
  | some e => .error e w
  | none =>
    .ok () { w with
      config := w.config.map (fun c =>
        match freq with
        | .daily => { c with lastDailyDigestAt := some now, updatedAt := some now }
        | .weekly => { c with lastWeeklyDigestAt := some now, updatedAt := some now }) }

/-! ## Mail transport (`server/services/email.ts`) -/

/-- The row shape `email.ts` receives from `alerts.ts`
(`LowStockProduct`). -/
structure EmailProduct where
  sku : String
  modelo : String
  descripcion : String
  stockCantidad : Int
  lowStockThreshold : Option Int
deriving DecidableEq, Repr

/-- The stats record `sendDigest` passes to `sendDigestEmail`. -/
structure EmailStats where
  totalProductos : Nat
  sinStock : Nat
  stockBajo : Nat
deriving DecidableEq, Repr

/-- One `<tr>` of `getLowStockEmailTemplate` (inline styling elided): SKU,
`modelo || 'Sin modelo'`, the quantity, `lowStockThreshold || 'N/A'`,
`descripcion || 'Sin descripción'`. -/
def lowStockEmailRow (p : EmailProduct) : String :=
  "<tr><td><strong>" ++ p.sku ++ "</strong><br><span>"
    ++ (if p.modelo = "" then "Sin modelo" else p.modelo)
    ++ "</span></td><td><span>" ++ toString p.stockCantidad
    ++ "</span></td><td>"
    ++ (match p.lowStockThreshold with
        | some t => if t = 0 then "N/A" else toString t
        | none => "N/A")
    ++ "</td><td>"
    ++ (if p.descripcion = "" then "Sin descripción" else p.descripcion)
    ++ "</td></tr>"

/-- `getLowStockEmailTemplate` (markup and styling elided to the data-bearing
parts): the banner counts the products, the table body joins one row per
product. -/
def getLowStockEmailTemplate (products : List EmailProduct) : String :=
  "<html><body><h1>Alerta de Stock Bajo</h1><p>Se detectaron "
    ++ toString products.length ++ " producto"
    ++ (if products.length > 1 then "s" else "")
    ++ " con stock bajo o crítico</p><table><tbody>"
    ++ String.join (products.map lowStockEmailRow)
    ++ "</tbody></table></body></html>"

/-- One `<tr>` of `getDigestEmailTemplate`: `sku - (modelo || 'Sin modelo')`
and the quantity. -/
def digestEmailRow (p : EmailProduct) : String :=
  "<tr><td><strong>" ++ p.sku ++ "</strong> - "
    ++ (if p.modelo = "" then "Sin modelo" else p.modelo)
    ++ "</td><td><span>" ++ toString p.stockCantidad ++ "</span></td></tr>"

/-- The digest table rows: `products.slice(0, 10)` rendered one row each
("Mostrar máximo 10 productos"). -/
def digestTableRows (products : List EmailProduct) : List String :=
  (products.take 10).map digestEmailRow

/-- The trailing remainder note of the digest table, rendered only when more
than 10 products exist: `... y ${products.length - 10} productos más con
stock bajo`. -/
def digestExtraNote (products : List EmailProduct) : String :=
  if products.length > 10 then
    "<p>... y " ++ toString (products.length - 10)
      ++ " productos más con stock bajo</p>"
  else ""

/-- `getDigestEmailTemplate` (markup and styling elided to the data-bearing
parts): title by frequency, the three stat figures, then either the product
table (at most 10 rows plus the remainder note) or the all-good banner. -/
def getDigestEmailTemplate (products : List EmailProduct) (freq : Frequency)
    (stats : EmailStats) : String :=
  let title := match freq with
    | .daily => "Resumen Diario"
    | .weekly => "Resumen Semanal"
  "<html><body><h1>" ++ title ++ " de Inventario</h1><div>"
    ++ toString stats.totalProductos ++ " Total Productos, "
    ++ toString stats.stockBajo ++ " Stock Bajo, "
    ++ toString stats.sinStock ++ " Sin Stock</div>"
    ++ (if products.length > 0 then
          "<table><tbody>" ++ String.join (digestTableRows products)
            ++ "</tbody></table>" ++ digestExtraNote products
        else "<p>Excelente: Todos los productos tienen stock suficiente</p>")
    ++ "</body></html>"

/-- `sendEmail`: returns `false` without an attempt when no SendGrid API key
is configured; otherwise hands the message to the transport and reports the
outcome (exceptions are caught inside and become `false`). -/
def sendEmail (apiKeyConfigured : Bool) (mailOk : Bool) (msg : EmailMsg)
    (w : World) : Bool × World :=
  if !apiKeyConfigured then (false, w)
  else (mailOk, { w with outbox := w.outbox ++ [msg] })

/-- `sendLowStockAlert(products, recipients, fromEmail)`. -/
def sendLowStockAlert (apiKeyConfigured mailOk : Bool)
    (products : List EmailProduct) (recipients : List String)
    (fromEmail : String) (w : World) : Bool × World :=
  if products.length = 0 || recipients.length = 0 then (false, w)
  else
    sendEmail apiKeyConfigured mailOk
      { toAddrs := recipients
        fromAddr := fromEmail
        subject := "⚠️ Alerta: " ++ toString products.length ++ " producto"
          ++ (if products.length > 1 then "s" else "") ++ " con stock bajo"
        html := getLowStockEmailTemplate products } w

/-- `sendDigestEmail(products, recipients, fromEmail, frequency, stats)`. -/
def sendDigestEmail (apiKeyConfigured mailOk : Bool)
    (products : List EmailProduct) (recipients : List String)
    (fromEmail : String) (freq : Frequency) (stats : EmailStats)
    (w : World) : Bool × World :=
  if recipients.length = 0 then (false, w)
  else
    let title := match freq with
      | .daily => "Resumen Diario"
      | .weekly => "Resumen Semanal"
    sendEmail apiKeyConfigured mailOk
      { toAddrs := recipients
        fromAddr := fromEmail
        subject := "📊 " ++ title ++ " de Inventario - Sistema KOR"
        html := getDigestEmailTemplate products freq stats } w

/-! ## The alert engine (`server/services/alerts.ts`) -/

/-- Error injections and mail outcome for one `checkLowStock` invocation. -/
structure CheckEnv where
  cfgErr : Option String
  lowStockErr : Option String
  apiKeyConfigured : Bool
  mailOk : Bool
  updateErr : String → Option String
  logErr : Option String

/-- Error injections and mail outcome for one `sendDigest` invocation. -/
structure DigestEnv where
  cfgErr : Option String
  statsErr : Option String
  lowStockErr : Option String
  apiKeyConfigured : Bool
  mailOk : Bool
  updateCfgErr : Option String
  logErr : Option String

/-- `config.fromEmail || 'noreply@inventario.com'`: JavaScript `||`, so both
`null` and the empty string fall back. -/
def fromOrDefault (fromEmail : Option String) : String :=
  match fromEmail with
  | some s => if s = "" then "noreply@inventario.com" else s
  | none => "noreply@inventario.com"

/-- The dedup filter callback of `checkLowStock`: keep a product when it was
never notified, or when
`(Date.now() - lowStockNotifiedAt) / (1000*60*60) >= 24`. -/
def notifyEligible (now : Time) (p : Product) : Bool :=
  match p.lowStockNotifiedAt with
  | none => true
  | some lastNotified =>
    let hoursSinceNotified : ℚ := ((now.ms - lastNotified.ms : Int) : ℚ) / (1000 * 60 * 60)
    decide (hoursSinceNotified ≥ 24)

/-- The map from a `products` row to the `LowStockProduct` shape sent to
`email.ts`: `modelo || ''`, `descripcion || ''`, `stockCantidad ?? 0`,
`lowStockThreshold ?? config.defaultThreshold`. -/
def toEmailProduct (config : AlertConfig) (p : Product) : EmailProduct :=
  { sku := p.sku
    modelo := p.modelo.getD ""
    descripcion := p.descripcion.getD ""
    stockCantidad := p.stockCantidad.getD 0
    lowStockThreshold :=
      match p.lowStockThreshold with
      | some t => some t
      | none => config.defaultThreshold }

/-- The AlertNotification row `checkLowStock` logs (status `'sent'` on
success, `'error'` plus the failure detail otherwise). -/
def lowStockEntry (recipients : List String) (n : Nat) (status : String)
    (err : Option String) : NotificationEntry :=
  { productId := none
    type := "low_stock"
    recipients := recipients
    subject := "Alerta: " ++ toString n ++ " productos con stock bajo"
    body := "Se detectaron " ++ toString n ++ " productos con stock bajo o crítico"
    status := status
    error := err }

/-- The `for (const product of productsToNotify)` loop of `checkLowStock`:
sequential `updateProductNotificationTime` calls; a throw aborts the rest. -/
def notifyLoop (updateErr : String → Option String) (now : Time) :
    List String → World → DbResult Unit
  | [], w => .ok () w
  | productId :: rest, w =>
    match updateProductNotificationTime (updateErr productId) now productId w with
    | .error e w1 => .error e w1
    | .ok _ w1 => notifyLoop updateErr now rest w1

/-- The body of `AlertEngine.checkLowStock(forceNotification)` inside its
`try` block. -/
def checkLowStockBody (env : CheckEnv) (now : Time) (force : Bool)
    (w : World) : DbResult Unit :=
  match getAlertConfig env.cfgErr now w with
  | .error e w1 => .error e w1
  | .ok cfg w1 =>
    match cfg with
    | none => .ok () w1
    | some config =>
      if config.isEnabled = some true then
        match config.recipients with
        | none => .ok () w1
        | some recipients =>
          if recipients.length = 0 then .ok () w1
          else
            match env.lowStockErr with
            | some e => .error e w1
            | none =>
              let lowStockProducts :=
                getLowStockProducts config.defaultThreshold w1.products
              if lowStockProducts.length = 0 then .ok () w1
              else
                let productsToNotify :=
                  if force then lowStockProducts
                  else lowStockProducts.filter (notifyEligible now)
                if productsToNotify.length = 0 then .ok () w1
                else
                  let emailProducts := productsToNotify.map (toEmailProduct config)
                  match sendLowStockAlert env.apiKeyConfigured env.mailOk
                      emailProducts recipients (fromOrDefault config.fromEmail) w1 with
                  | (emailSent, w2) =>
                    if emailSent then
                      match notifyLoop env.updateErr now
                          (productsToNotify.map (fun p => p.id)) w2 with
                      | .error e w3 => .error e w3
                      | .ok _ w3 =>
                        match createAlertNotification env.logErr
                            (lowStockEntry recipients productsToNotify.length
                              "sent" none) w3 with
                        | .error e w4 => .error e w4
                        | .ok _ w4 => .ok () w4
                    else
                      match createAlertNotification env.logErr
                          (lowStockEntry recipients productsToNotify.length
                            "error" (some "Error al enviar email")) w2 with
                      | .error e w3 => .error e w3
                      | .ok _ w3 => .ok () w3
      else .ok () w1

/-- The top-level `try { … } catch (error) { console.error(…) }` of each task
body: a throw is swallowed (the state mutated so far is kept) and the task
returns normally. -/
def catchLogged (r : DbResult Unit) : DbResult Unit :=
  match r with
  | .ok u w => .ok u w
  | .error _ w => .ok () w

/-- `AlertEngine.checkLowStock(forceNotification)` as invoked by the
scheduler or `manualStockCheck`. -/
def checkLowStock (env : CheckEnv) (now : Time) (force : Bool)
    (w : World) : DbResult Unit :=
  catchLogged (checkLowStockBody env now force w)

/-- The daily duplicate-window guard of `sendDigest`: exit when
`lastDailyDigestAt` exists and shares `getDate`, `getMonth`, `getFullYear`
with today. -/
def dailyGuardHit (freq : Frequency) (config : AlertConfig) (now : Time) : Bool :=
  match freq, config.lastDailyDigestAt with
  | .daily, some lastSent =>
    lastSent.day == now.day && lastSent.month == now.month
      && lastSent.year == now.year
  | _, _ => false

/-- The weekly duplicate-window guard of `sendDigest`: exit when
`lastWeeklyDigestAt` exists and
`(Date.now() - lastWeeklyDigestAt) / (1000*60*60*24) < 7`. -/
def weeklyGuardHit (freq : Frequency) (config : AlertConfig) (now : Time) : Bool :=
  match freq, config.lastWeeklyDigestAt with
  | .weekly, some lastSent =>
    let daysSinceLastSent : ℚ :=
      ((now.ms - lastSent.ms : Int) : ℚ) / (1000 * 60 * 60 * 24)
    decide (daysSinceLastSent < 7)
  | _, _ => false

/-- The AlertNotification row `sendDigest` logs. -/
def digestEntry (recipients : List String) (freq : Frequency) (stockBajo : Nat)
    (status : String) (err : Option String) : NotificationEntry :=
  { productId := none
    type := "digest"
    recipients := recipients
    subject := "Resumen "
      ++ (match freq with | .daily => "Diario" | .weekly => "Semanal")
      ++ " de Inventario"
    body := "Resumen con " ++ toString stockBajo ++ " productos con stock bajo"
    status := status
    error := err }

/-- The body of `AlertEngine.sendDigest(frequency)` inside its `try`
block. -/
def sendDigestBody (env : DigestEnv) (freq : Frequency) (now : Time)
    (w : World) : DbResult Unit :=
  match getAlertConfig env.cfgErr now w with
  | .error e w1 => .error e w1
  | .ok cfg w1 =>
    match cfg with
    | none => .ok () w1
    | some config =>
      if config.isEnabled = some true then
        match config.recipients with
        | none => .ok () w1
        | some recipients =>
          if recipients.length = 0 then .ok () w1
          else if dailyGuardHit freq config now then .ok () w1
          else if weeklyGuardHit freq config now then .ok () w1
          else
            match env.statsErr with
            | some e => .error e w1
            | none =>
              let stats := getProductStats w1.products
              match env.lowStockErr with
              | some e => .error e w1
              | none =>
                let lowStockProducts :=
                  getLowStockProducts config.defaultThreshold w1.products
                let emailProducts := lowStockProducts.map (toEmailProduct config)
                let emailStats : EmailStats :=
                  { totalProductos := stats.totalProductos
                    sinStock := stats.sinStock
                    stockBajo := lowStockProducts.length }
                match sendDigestEmail env.apiKeyConfigured env.mailOk
                    emailProducts recipients (fromOrDefault config.fromEmail)
                    freq emailStats w1 with
                | (emailSent, w2) =>
                  if emailSent then
                    match updateAlertConfigDigest env.updateCfgErr freq now w2 with
                    | .error e w3 => .error e w3
                    | .ok _ w3 =>
                      match createAlertNotification env.logErr
                          (digestEntry recipients freq emailStats.stockBajo
                            "sent" none) w3 with
                      | .error e w4 => .error e w4
                      | .ok _ w4 => .ok () w4
                  else
                    match createAlertNotification env.logErr
                        (digestEntry recipients freq emailStats.stockBajo
                          "error" (some "Error al enviar email")) w2 with
                    | .error e w3 => .error e w3
                    | .ok _ w3 => .ok () w3
      else .ok () w1

/-- `AlertEngine.sendDigest(frequency)` as invoked by the scheduler or
`manualDigest`. -/
def sendDigest (env : DigestEnv) (freq : Frequency) (now : Time)
    (w : World) : DbResult Unit :=
  catchLogged (sendDigestBody env freq now w)

/-! ## Sample data (used to instantiate the theorems on concrete inputs) -/

/-- A concrete tick. -/
def sampleTime : Time := { ms := 1700000000000, day := 14, month := 10, year := 2023 }

/-- The spec's Scenario A product: `SKU-1`, quantity 3, own threshold 10,
never notified. -/
def sampleProduct : Product :=
  { id := "p1", sku := "SKU-1", modelo := some "M1", descripcion := none
    familia := none, stock := some "Disponible", stockCantidad := some 3
    lowStockThreshold := some 10, lowStockNotifiedAt := none }

/-- A second low-stock product. -/
def sampleProduct2 : Product :=
  { id := "p2", sku := "SKU-2", modelo := none, descripcion := none
    familia := none, stock := some "Disponible", stockCantidad := some 1
    lowStockThreshold := none, lowStockNotifiedAt := none }

/-- The spec's Scenario A configuration: default threshold 5, one recipient,
enabled. -/
def sampleConfig : AlertConfig :=
  { defaultThreshold := some 5, summaryFrequency := some "daily"
    recipients := some ["a@x.com"], lastDailyDigestAt := none
    lastWeeklyDigestAt := none, isEnabled := some true, fromEmail := none
    updatedAt := none }

/-- Scenario A world. -/
def sampleWorld : World :=
  { products := [sampleProduct], config := some sampleConfig
    notifications := [], outbox := [] }

/-- All collaborators healthy, mail succeeds. -/
def okCheckEnv : CheckEnv :=
  { cfgErr := none, lowStockErr := none, apiKeyConfigured := true
    mailOk := true, updateErr := fun _ => none, logErr := none }

/-- All collaborators healthy, mail succeeds. -/
def okDigestEnv : DigestEnv :=
  { cfgErr := none, statsErr := none, lowStockErr := none
    apiKeyConfigured := true, mailOk := true, updateCfgErr := none
    logErr := none }

/-- All collaborators healthy but the mail transport reports failure. -/
def failMailCheckEnv : CheckEnv := { okCheckEnv with mailOk := false }

/-- All collaborators healthy but the mail transport reports failure. -/
def failMailDigestEnv : DigestEnv := { okDigestEnv with mailOk := false }

/-- A configuration whose weekly digest last went out at `sampleTime`. -/
def weeklyConfig : AlertConfig :=
  { sampleConfig with summaryFrequency := some "weekly"
                      lastWeeklyDigestAt := some sampleTime }

/-- Scenario world for the weekly window. -/
def weeklyWorld : World := { sampleWorld with config := some weeklyConfig }

/-- A tick `deltaMs` milliseconds after `sampleTime` (on a later calendar
day). -/
def timePlus (deltaMs : Int) : Time :=
  { ms := sampleTime.ms + deltaMs, day := 21, month := 10, year := 2023 }

/-- The effect of one `updateProductNotificationTime` on the product table. -/
def setNotified (now : Time) (productId : String) (ps : List Product) : List Product :=
  ps.map fun p => if p.id = productId then { p with lowStockNotifiedAt := some now } else p

/-- The cumulative effect of the update loop over a list of product ids. -/
def setNotifiedAll (now : Time) (ids : List String) (ps : List Product) : List Product :=
  ids.foldl (fun acc i => setNotified now i acc) ps

/-- Healthy collaborators except that the timestamp update for product `p2`
throws. -/
def failUpdateEnv : CheckEnv :=
  { okCheckEnv with updateErr := fun i => if i = "p2" then some "db error" else none }

/-- Two low-stock products (`p2` sorts first: quantity 1 against 3). -/
def twoProductWorld : World :=
  { products := [sampleProduct, sampleProduct2], config := some sampleConfig
    notifications := [], outbox := [] }

/-- One hour after `sampleTime`, on the same calendar date. -/
def sameDayLater : Time :=
  { ms := sampleTime.ms + 3600000, day := 14, month := 10, year := 2023 }

/-- Twelve low-stock rows for the digest-template cap. -/
def sampleEmailProduct (n : Nat) : EmailProduct :=
  { sku := "SKU-" ++ toString n, modelo := "", descripcion := ""
    stockCantidad := 0, lowStockThreshold := none }

/-- A list of 12 digest rows (more than the 10-row cap). -/
def sampleDigestProducts : List EmailProduct :=
  (List.range 12).map sampleEmailProduct

/-! ## Theorems -/

/-- C8: for every outcome of the collaborators (including thrown errors from
the configuration load, product queries, per-product timestamp updates,
config update and log append, and either mail outcome), `checkLowStock` and
`sendDigest` return normally: the top-level catch prevents any exception
from propagating to the caller or scheduler. -/
theorem alert_tasks_never_throw (cenv : CheckEnv) (denv : DigestEnv)
    (now : Time) (force : Bool) (freq : Frequency) (w : World) :
    (checkLowStock cenv now force w).isOk = true ∧
    (sendDigest denv freq now w).isOk = true := by
  constructor
  · unfold checkLowStock catchLogged
    cases checkLowStockBody cenv now force w <;> rfl
  · unfold sendDigest catchLogged
    cases sendDigestBody denv freq now w <;> rfl

/-- C10: the `sinStock` figure of `getProductStats` (fed into the digest
statistics by `sendDigest`) is the total row count minus the count of rows
with `stock = 'Disponible'`; equivalently it counts every product whose
status is anything other than exactly `'Disponible'` — including
`'Consultar'` and `NULL` — regardless of its numeric stock quantity. -/
theorem getProductStats_sinStock (products : List Product) :
    (getProductStats products).sinStock
        = products.length
            - (products.filter (fun p => p.stock == some "Disponible")).length ∧
    (getProductStats products).sinStock
        = (products.filter (fun p => !(p.stock == some "Disponible"))).length := by
  refine ⟨rfl, ?_⟩
  show products.length
      - (products.filter (fun p => p.stock == some "Disponible")).length
    = (products.filter (fun p => !(p.stock == some "Disponible"))).length
  induction products with
  | nil => rfl
  | cons p ps ih =>
    have hle := List.length_filter_le (fun p => p.stock == some "Disponible") ps
    by_cases h : p.stock = some "Disponible" <;> simp [List.filter_cons, h] <;> omega

/-- C9: the digest email body renders at most 10 product rows — exactly
`min (length, 10)` of them — and when more than 10 low-stock products exist
the remainder appears only as the count note
`... y N productos más con stock bajo` (absent otherwise). -/
theorem digest_template_caps_rows (products : List EmailProduct) :
    (digestTableRows products).length = min products.length 10 ∧
    (10 < products.length →
      digestExtraNote products
        = "<p>... y " ++ toString (products.length - 10)
            ++ " productos más con stock bajo</p>") ∧
    (products.length ≤ 10 → digestExtraNote products = "") := by
  refine ⟨?_, ?_, ?_⟩
  · simp [digestTableRows, Nat.min_comm]
  · intro h
    simp [digestExtraNote, h]
  · intro h
    simp [digestExtraNote, Nat.not_lt.mpr h]

/-- C9 witness: on 12 concrete rows the table has `min 12 10 = 10` rows and
the note reports the 2 remaining products. -/
theorem digest_template_caps_rows_witness :
    (digestTableRows sampleDigestProducts).length = min sampleDigestProducts.length 10 ∧
    digestExtraNote sampleDigestProducts
      = "<p>... y 2 productos más con stock bajo</p>" := by
  refine ⟨(digest_template_caps_rows sampleDigestProducts).1, ?_⟩
  have h := (digest_template_caps_rows sampleDigestProducts).2.1 (by decide)
  rw [h]
  rfl

/-- C7: with the configuration present but disabled, or with its recipients
column null or the empty list, both `checkLowStock` (any force flag) and
`sendDigest` (either frequency) return `ok` with the world unchanged: no
email attempt, no notification log entry, no product or configuration
mutation. -/
theorem disabled_or_no_recipients_noop
    (cenv : CheckEnv) (denv : DigestEnv) (now : Time) (force : Bool)
    (freq : Frequency) (w : World) (c : AlertConfig)
    (hc : w.config = some c)
    (hcond : c.isEnabled ≠ some true ∨ c.recipients = none ∨ c.recipients = some [])
    (hc1 : cenv.cfgErr = none) (hc2 : denv.cfgErr = none) :
    checkLowStock cenv now force w = .ok () w ∧
    sendDigest denv freq now w = .ok () w := by
  rcases hcond with h | h | h <;>
    constructor <;>
    simp [checkLowStock, sendDigest, checkLowStockBody, sendDigestBody,
      catchLogged, getAlertConfig, hc1, hc2, hc, h]

/-- C7 witness: a disabled configuration and an empty-recipients
configuration, each on a concrete world. -/
theorem disabled_or_no_recipients_noop_witness :
    (checkLowStock okCheckEnv sampleTime false
        { sampleWorld with config := some { sampleConfig with recipients := some [] } }
      = .ok () { sampleWorld with config := some { sampleConfig with recipients := some [] } }) ∧
    (sendDigest okDigestEnv .daily sampleTime
        { sampleWorld with config := some { sampleConfig with isEnabled := some false } }
      = .ok () { sampleWorld with config := some { sampleConfig with isEnabled := some false } }) := by
  constructor
  · exact (disabled_or_no_recipients_noop okCheckEnv okDigestEnv sampleTime false
      Frequency.daily _ _ rfl (Or.inr (Or.inr rfl)) rfl rfl).1
  · exact (disabled_or_no_recipients_noop okCheckEnv okDigestEnv sampleTime false
      Frequency.daily _ _ rfl (Or.inl (by decide)) rfl rfl).2

/-- C1: for a configured default threshold `d ≥ 1` and a product whose
`stock_cantidad` is non-null, the low-stock query returns the product exactly
when its quantity is strictly below its own `low_stock_threshold` (when set,
otherwise `d`), or its status is `'Sin Stock'` or `'Consultar'`. -/
theorem getLowStockProducts_mem_iff
    (d : Int) (products : List Product) (p : Product) (q : Int)
    (hd : 1 ≤ d) (hq : p.stockCantidad = some q) :
    p ∈ getLowStockProducts (some d) products ↔
      p ∈ products ∧
        (q < p.lowStockThreshold.getD d
          ∨ p.stock = some "Sin Stock" ∨ p.stock = some "Consultar") := by
  have hd0 : ¬ d = 0 := by omega
  unfold getLowStockProducts
  rw [List.mem_insertionSort, List.mem_filter]
  simp [lowStockWhere, hq, hd0]

/-- C1 witness: with default threshold 5, `SKU-1` (quantity 3, own threshold
10) is returned, as 3 < 10. -/
theorem getLowStockProducts_mem_iff_witness :
    (1 ≤ (5 : Int)) ∧
    (sampleProduct ∈ getLowStockProducts (some 5) [sampleProduct] ↔
      sampleProduct ∈ [sampleProduct] ∧
        ((3 : Int) < sampleProduct.lowStockThreshold.getD 5
          ∨ sampleProduct.stock = some "Sin Stock"
          ∨ sampleProduct.stock = some "Consultar")) :=
  ⟨by decide,
   getLowStockProducts_mem_iff 5 [sampleProduct] sampleProduct 3 (by decide) rfl⟩

/-- C2: within `checkLowStock`, a low-stock product notified at time `T` is
excluded from the eligible set by a non-forced run strictly before `T + 24h`
and included at or after `T + 24h` (the filter computes
`(now − T) / 3600000 ≥ 24`); a never-notified product is always eligible, and
a forced run takes every low-stock product. -/
theorem checkLowStock_dedup_window
    (now : Time) (lows : List Product) (p : Product) (hp : p ∈ lows) :
    (∀ force : Bool, force = true →
      p ∈ (if force then lows else lows.filter (notifyEligible now))) ∧
    (p.lowStockNotifiedAt = none → p ∈ lows.filter (notifyEligible now)) ∧
    (∀ t : Time, p.lowStockNotifiedAt = some t →
      (p ∈ lows.filter (notifyEligible now) ↔
        24 * (1000 * 60 * 60) ≤ now.ms - t.ms)) := by
  refine ⟨?_, ?_, ?_⟩
  · intro force hf
    subst hf
    simpa using hp
  · intro h
    rw [List.mem_filter]
    exact ⟨hp, by simp [notifyEligible, h]⟩
  · intro t ht
    rw [List.mem_filter]
    simp only [hp, true_and]
    unfold notifyEligible
    rw [ht]
    simp only [decide_eq_true_eq, ge_iff_le]
    rw [le_div_iff₀ (by norm_num : (0:ℚ) < 1000 * 60 * 60)]
    constructor
    · intro h
      have h24 : ((24 * (1000 * 60 * 60) : Int) : ℚ) ≤ ((now.ms - t.ms : Int) : ℚ) := by
        push_cast
        push_cast at h
        linarith
      exact_mod_cast h24
    · intro h
      have h24 : ((24 * (1000 * 60 * 60) : Int) : ℚ) ≤ ((now.ms - t.ms : Int) : ℚ) := by
        exact_mod_cast h
      push_cast
      push_cast at h24
      linarith

/-- C2 witness: a product notified 23h59m ago is outside, one notified
exactly 24h ago is inside, a never-notified one is inside, and force takes
everything. -/
theorem checkLowStock_dedup_window_witness :
    (sampleProduct ∈ (if true then [sampleProduct] else
      [sampleProduct].filter (notifyEligible sampleTime))) ∧
    (sampleProduct ∈ [sampleProduct].filter (notifyEligible sampleTime)) ∧
    (({ sampleProduct with
          lowStockNotifiedAt := some { sampleTime with ms := sampleTime.ms - 86400000 } } : Product)
        ∈ [{ sampleProduct with
          lowStockNotifiedAt := some { sampleTime with ms := sampleTime.ms - 86400000 } }].filter
            (notifyEligible sampleTime)) ∧
    ¬ (({ sampleProduct with
          lowStockNotifiedAt := some { sampleTime with ms := sampleTime.ms - 86340000 } } : Product)
        ∈ [{ sampleProduct with
          lowStockNotifiedAt := some { sampleTime with ms := sampleTime.ms - 86340000 } }].filter
            (notifyEligible sampleTime)) := by
  refine ⟨?_, ?_, ?_, ?_⟩
  · exact (checkLowStock_dedup_window sampleTime [sampleProduct] sampleProduct
      (by decide)).1 true rfl
  · exact (checkLowStock_dedup_window sampleTime [sampleProduct] sampleProduct
      (by decide)).2.1 rfl
  · exact ((checkLowStock_dedup_window sampleTime _ _ (List.mem_singleton.mpr rfl)).2.2
      _ rfl).mpr (by decide)
  · intro hmem
    have h := ((checkLowStock_dedup_window sampleTime _ _
      (List.mem_singleton.mpr rfl)).2.2 _ rfl).mp hmem
    revert h
    decide

/-- C4: when the mail transport reports failure, neither operation advances
any guard state: `checkLowStock` leaves every product's
`lowStockNotifiedAt` and the configuration untouched and appends exactly one
`'error'` log entry, and `sendDigest` leaves the products and the
configuration (hence `lastDailyDigestAt` / `lastWeeklyDigestAt`) untouched
and appends exactly one `'error'` log entry. -/
theorem mail_failure_preserves_guards
    (cenv : CheckEnv) (denv : DigestEnv) (now : Time) (force : Bool)
    (freq : Frequency) (w : World) (c : AlertConfig) (rs : List String)
    (hc : w.config = some c) (hen : c.isEnabled = some true)
    (hr : c.recipients = some rs) (hrne : ¬ rs.length = 0)
    (hc1 : cenv.cfgErr = none) (hc2 : cenv.lowStockErr = none)
    (hc3 : cenv.mailOk = false) (hc4 : cenv.logErr = none)
    (helig : ¬ (if force then getLowStockProducts c.defaultThreshold w.products
        else (getLowStockProducts c.defaultThreshold w.products).filter
          (notifyEligible now)).length = 0)
    (hd1 : denv.cfgErr = none) (hd2 : denv.statsErr = none)
    (hd3 : denv.lowStockErr = none) (hd4 : denv.mailOk = false)
    (hd5 : denv.logErr = none)
    (hg1 : dailyGuardHit freq c now = false)
    (hg2 : weeklyGuardHit freq c now = false) :
    ((checkLowStock cenv now force w).state.products = w.products ∧
     (checkLowStock cenv now force w).state.config = w.config ∧
     (checkLowStock cenv now force w).state.notifications
       = w.notifications ++
          [lowStockEntry rs
            (if force then getLowStockProducts c.defaultThreshold w.products
             else (getLowStockProducts c.defaultThreshold w.products).filter
               (notifyEligible now)).length
            "error" (some "Error al enviar email")]) ∧
    ((sendDigest denv freq now w).state.products = w.products ∧
     (sendDigest denv freq now w).state.config = w.config ∧
     (sendDigest denv freq now w).state.notifications
       = w.notifications ++
          [digestEntry rs freq
            (getLowStockProducts c.defaultThreshold w.products).length
            "error" (some "Error al enviar email")]) := by
  have hlow : ¬ (getLowStockProducts c.defaultThreshold w.products).length = 0 := by
    cases force with
    | false =>
      simp only [if_neg Bool.false_ne_true, ite_false] at helig
      intro h0
      rw [List.length_eq_zero] at h0
      rw [h0] at helig
      simp at helig
    | true => simpa using helig
  constructor
  · cases hapi : cenv.apiKeyConfigured <;>
      refine ⟨?_, ?_, ?_⟩ <;>
        simp [checkLowStock, checkLowStockBody, catchLogged, getAlertConfig,
          sendLowStockAlert, sendEmail, createAlertNotification, DbResult.state,
          hc1, hc, hen, hr, hrne, hc2, hc3, hc4, hlow, helig, hapi]
  · cases hapi : denv.apiKeyConfigured <;>
      refine ⟨?_, ?_, ?_⟩ <;>
        simp [sendDigest, sendDigestBody, catchLogged, getAlertConfig,
          sendDigestEmail, sendEmail, createAlertNotification, DbResult.state,
          hd1, hc, hen, hr, hrne, hd2, hd3, hd4, hd5, hg1, hg2, hapi]

/-- C4 witness: with a failing mail transport on Scenario A, the product
table and configuration are untouched and exactly one log entry is
appended. -/
theorem mail_failure_preserves_guards_witness :
    (checkLowStock failMailCheckEnv sampleTime false sampleWorld).state.products
      = sampleWorld.products ∧
    (sendDigest failMailDigestEnv .daily sampleTime sampleWorld).state.config
      = sampleWorld.config ∧
    (checkLowStock failMailCheckEnv sampleTime false sampleWorld).state.notifications.length
      = sampleWorld.notifications.length + 1 := by
  have h := mail_failure_preserves_guards failMailCheckEnv failMailDigestEnv sampleTime
    false Frequency.daily sampleWorld sampleConfig ["a@x.com"] rfl rfl rfl (by decide)
    rfl rfl rfl rfl (by decide) rfl rfl rfl rfl rfl rfl rfl
  refine ⟨h.1.1, h.2.2.1, ?_⟩
  rw [h.1.2.2]
  simp

/-- C6: with `lastWeeklyDigestAt = T`, `sendDigest('weekly')` is a complete
no-op (no email, no log entry, no state change) whenever the elapsed time is
strictly under 7 days, and hands the digest to the mail transport whenever
the elapsed time is at least 7 days (in particular at `T + 7 days 1 hour`). -/
theorem sendDigest_weekly_window
    (env : DigestEnv) (now : Time) (w : World) (c : AlertConfig)
    (rs : List String) (t : Time)
    (hc : w.config = some c) (hen : c.isEnabled = some true)
    (hr : c.recipients = some rs) (hrne : ¬ rs.length = 0)
    (ht : c.lastWeeklyDigestAt = some t)
    (h1 : env.cfgErr = none) :
    (now.ms - t.ms < 7 * (1000 * 60 * 60 * 24) →
      sendDigest env .weekly now w = .ok () w) ∧
    (7 * (1000 * 60 * 60 * 24) ≤ now.ms - t.ms →
      env.statsErr = none → env.lowStockErr = none →
      env.apiKeyConfigured = true →
      ∃ msg : EmailMsg,
        (sendDigest env .weekly now w).state.outbox = w.outbox ++ [msg] ∧
        msg.subject = "📊 " ++ "Resumen Semanal" ++ " de Inventario - Sistema KOR") := by
  constructor
  · intro hlt
    have hguard : weeklyGuardHit .weekly c now = true := by
      unfold weeklyGuardHit
      rw [ht]
      simp only [decide_eq_true_eq]
      rw [div_lt_iff₀ (by norm_num : (0:ℚ) < 1000 * 60 * 60 * 24)]
      have : ((now.ms - t.ms : Int) : ℚ) < ((7 * (1000 * 60 * 60 * 24) : Int) : ℚ) := by
        exact_mod_cast hlt
      push_cast at this ⊢
      linarith
    simp [sendDigest, sendDigestBody, catchLogged, getAlertConfig, h1, hc, hen,
      hr, hrne, hguard, dailyGuardHit]
  · intro hge h2 h3 h4
    have hguard : weeklyGuardHit .weekly c now = false := by
      unfold weeklyGuardHit
      rw [ht]
      simp only [decide_eq_false_iff_not, not_lt]
      rw [le_div_iff₀ (by norm_num : (0:ℚ) < 1000 * 60 * 60 * 24)]
      have h7 : ((7 * (1000 * 60 * 60 * 24) : Int) : ℚ) ≤ ((now.ms - t.ms : Int) : ℚ) := by
        exact_mod_cast hge
      push_cast at h7 ⊢
      linarith
    refine ⟨{ toAddrs := rs
              fromAddr := fromOrDefault c.fromEmail
              subject := "📊 " ++ "Resumen Semanal" ++ " de Inventario - Sistema KOR"
              html := getDigestEmailTemplate
                ((getLowStockProducts c.defaultThreshold w.products).map (toEmailProduct c))
                .weekly
                { totalProductos := (getProductStats w.products).totalProductos
                  sinStock := (getProductStats w.products).sinStock
                  stockBajo := (getLowStockProducts c.defaultThreshold w.products).length } },
      ?_, rfl⟩
    cases hmail : env.mailOk <;>
      cases hupd : env.updateCfgErr <;>
      cases hlog : env.logErr <;>
        simp [sendDigest, sendDigestBody, catchLogged, getAlertConfig,
          sendDigestEmail, sendEmail, createAlertNotification,
          updateAlertConfigDigest, DbResult.state, dailyGuardHit,
          h1, hc, hen, hr, hrne, hguard, h2, h3, h4, hmail, hupd, hlog]

/-- C6 witness: at `T + 6 days 23 h` the weekly digest is a no-op; at
`T + 7 days 1 h` the digest is handed to the transport. -/
theorem sendDigest_weekly_window_witness :
    sendDigest okDigestEnv .weekly (timePlus (6 * 86400000 + 23 * 3600000)) weeklyWorld
      = .ok () weeklyWorld ∧
    ∃ msg : EmailMsg,
      (sendDigest okDigestEnv .weekly (timePlus (7 * 86400000 + 3600000))
          weeklyWorld).state.outbox
        = weeklyWorld.outbox ++ [msg] ∧
      msg.subject = "📊 " ++ "Resumen Semanal" ++ " de Inventario - Sistema KOR" := by
  constructor
  · exact (sendDigest_weekly_window okDigestEnv _ weeklyWorld weeklyConfig
      ["a@x.com"] sampleTime rfl rfl rfl (by decide) rfl rfl).1 (by decide)
  · exact (sendDigest_weekly_window okDigestEnv _ weeklyWorld weeklyConfig
      ["a@x.com"] sampleTime rfl rfl rfl (by decide) rfl rfl).2 (by decide) rfl rfl rfl

/-- C3: `sendDigest('daily')` is idempotent within a calendar day: after a
first successful run at `now₁`, a second run whose `now₂` shares the calendar
date (day, month, year) recorded in `lastDailyDigestAt` is a no-op, so the
two calls append exactly one `'sent'` log entry and perform exactly one
update of `lastDailyDigestAt` (to `now₁`). -/
theorem sendDigest_daily_idempotent
    (env1 env2 : DigestEnv) (now1 now2 : Time) (w : World) (c : AlertConfig)
    (rs : List String)
    (hc : w.config = some c) (hen : c.isEnabled = some true)
    (hr : c.recipients = some rs) (hrne : ¬ rs.length = 0)
    (hg : dailyGuardHit .daily c now1 = false)
    (he1 : env1.cfgErr = none) (he2 : env1.statsErr = none)
    (he3 : env1.lowStockErr = none) (he4 : env1.apiKeyConfigured = true)
    (he5 : env1.mailOk = true) (he6 : env1.updateCfgErr = none)
    (he7 : env1.logErr = none)
    (hf1 : env2.cfgErr = none)
    (hsame : now2.day = now1.day ∧ now2.month = now1.month ∧ now2.year = now1.year) :
    sendDigest env2 .daily now2 ((sendDigest env1 .daily now1 w).state)
        = .ok () ((sendDigest env1 .daily now1 w).state) ∧
    (((sendDigest env1 .daily now1 w).state.notifications.filter
        (fun e => e.status == "sent")).length
      = (w.notifications.filter (fun e => e.status == "sent")).length + 1) ∧
    ((sendDigest env1 .daily now1 w).state.config.map
        (fun cc => cc.lastDailyDigestAt)) = some (some now1) := by
  have hw1 : sendDigest env1 .daily now1 w = .ok ()
      { products := w.products
        config := some { c with lastDailyDigestAt := some now1, updatedAt := some now1 }
        notifications := w.notifications ++
          [digestEntry rs .daily
            (getLowStockProducts c.defaultThreshold w.products).length "sent" none]
        outbox := w.outbox ++
          [{ toAddrs := rs
             fromAddr := fromOrDefault c.fromEmail
             subject := "📊 " ++ "Resumen Diario" ++ " de Inventario - Sistema KOR"
             html := getDigestEmailTemplate
               ((getLowStockProducts c.defaultThreshold w.products).map (toEmailProduct c))
               .daily
               { totalProductos := (getProductStats w.products).totalProductos
                 sinStock := (getProductStats w.products).sinStock
                 stockBajo := (getLowStockProducts c.defaultThreshold w.products).length } }] } := by
    simp [sendDigest, sendDigestBody, catchLogged, getAlertConfig, sendDigestEmail,
      sendEmail, createAlertNotification, updateAlertConfigDigest, weeklyGuardHit,
      he1, hc, hen, hr, hrne, hg, he2, he3, he4, he5, he6, he7]
  have hguard2 : ∀ cc : AlertConfig, cc.lastDailyDigestAt = some now1 →
      dailyGuardHit .daily cc now2 = true := by
    intro cc hcc
    simp [dailyGuardHit, hcc, hsame.1, hsame.2.1, hsame.2.2]
  refine ⟨?_, ?_, ?_⟩
  · rw [hw1]
    show sendDigest env2 .daily now2 _ = _
    simp [sendDigest, sendDigestBody, catchLogged, getAlertConfig, DbResult.state,
      hf1, hen, hr, hrne, hguard2]
  · rw [hw1]
    simp [DbResult.state, digestEntry]
  · rw [hw1]
    simp [DbResult.state]

/-- C3 witness: two daily digests on the same concrete calendar day — the
second is a no-op, one `'sent'` entry total, `lastDailyDigestAt` set once. -/
theorem sendDigest_daily_idempotent_witness :
    sendDigest okDigestEnv .daily sameDayLater
        ((sendDigest okDigestEnv .daily sampleTime sampleWorld).state)
      = .ok () ((sendDigest okDigestEnv .daily sampleTime sampleWorld).state) ∧
    (((sendDigest okDigestEnv .daily sampleTime sampleWorld).state.notifications.filter
        (fun e => e.status == "sent")).length
      = (sampleWorld.notifications.filter (fun e => e.status == "sent")).length + 1) ∧
    ((sendDigest okDigestEnv .daily sampleTime sampleWorld).state.config.map
        (fun cc => cc.lastDailyDigestAt)) = some (some sampleTime) :=
  sendDigest_daily_idempotent okDigestEnv okDigestEnv sampleTime sameDayLater
    sampleWorld sampleConfig ["a@x.com"] rfl rfl rfl (by decide) rfl rfl rfl rfl
    rfl rfl rfl rfl rfl ⟨rfl, rfl, rfl⟩

/-- When every per-product update succeeds, the loop stamps every id and
returns normally. -/
theorem notifyLoop_all_ok (updateErr : String → Option String) (now : Time)
    (ids : List String) (w : World)
    (h : ∀ i ∈ ids, updateErr i = none) :
    notifyLoop updateErr now ids w
      = .ok () { w with products := setNotifiedAll now ids w.products } := by
  induction ids generalizing w with
  | nil => rfl
  | cons i rest ih =>
    have hi : updateErr i = none := h i (List.mem_cons_self i rest)
    simp [notifyLoop, updateProductNotificationTime, hi, setNotifiedAll, setNotified,
      ih _ (fun j hj => h j (List.mem_cons_of_mem i hj))]

/-- When the update for `idf` throws after a successful prefix, the loop
stops there: the prefix is stamped, the rest is not. -/
theorem notifyLoop_prefix_err (updateErr : String → Option String) (now : Time)
    (ids1 : List String) (idf : String) (ids2 : List String) (e : String)
    (w : World)
    (h1 : ∀ i ∈ ids1, updateErr i = none) (hf : updateErr idf = some e) :
    notifyLoop updateErr now (ids1 ++ idf :: ids2) w
      = .error e { w with products := setNotifiedAll now ids1 w.products } := by
  induction ids1 generalizing w with
  | nil => simp [notifyLoop, updateProductNotificationTime, hf, setNotifiedAll]
  | cons i rest ih =>
    have hi : updateErr i = none := h1 i (List.mem_cons_self i rest)
    simp [notifyLoop, updateProductNotificationTime, hi, setNotifiedAll, setNotified,
      ih _ (fun j hj => h1 j (List.mem_cons_of_mem i hj))]

/-- C5 counterexample: on a concrete world with two eligible products
(sorted as `p2`, then `p1`) where the mail send succeeds but the timestamp
update for `p2` throws, the update for the remaining product `p1` does NOT
happen (no product is stamped at all) and no `'sent'` log entry is appended
— refuting the claimed independence of the per-product updates. -/
theorem checkLowStock_partial_update_counterexample :
    (checkLowStock failUpdateEnv sampleTime false twoProductWorld).state.products
        = twoProductWorld.products ∧
    (checkLowStock failUpdateEnv sampleTime false twoProductWorld).state.notifications
        = [] ∧
    (checkLowStock failUpdateEnv sampleTime false twoProductWorld).state.outbox.length
        = 1 := by
  refine ⟨?_, ?_, ?_⟩ <;> decide

/-- C5 (amended): after a successful mail send the per-product
`lowStockNotifiedAt` updates run sequentially over the eligible products;
when every update succeeds, all of them are stamped and the `'sent'` entry
is appended, and an earlier successful update is never rolled back by a
later failure — but a throwing update aborts the remaining updates and
skips the `'sent'` log entry (the error is swallowed by the top-level
catch). -/
theorem checkLowStock_update_loop_behavior
    (env : CheckEnv) (now : Time) (force : Bool) (w : World) (c : AlertConfig)
    (rs : List String) (elig : List Product)
    (hc : w.config = some c) (hen : c.isEnabled = some true)
    (hr : c.recipients = some rs) (hrne : ¬ rs.length = 0)
    (h1 : env.cfgErr = none) (h2 : env.lowStockErr = none)
    (h3 : env.apiKeyConfigured = true) (h4 : env.mailOk = true)
    (h5 : env.logErr = none)
    (helig_def : elig = if force then getLowStockProducts c.defaultThreshold w.products
        else (getLowStockProducts c.defaultThreshold w.products).filter
          (notifyEligible now))
    (helig : ¬ elig.length = 0) :
    ((∀ i ∈ elig.map (fun p => p.id), env.updateErr i = none) →
      (checkLowStock env now force w).state.products
          = setNotifiedAll now (elig.map (fun p => p.id)) w.products ∧
      (checkLowStock env now force w).state.notifications
          = w.notifications ++ [lowStockEntry rs elig.length "sent" none]) ∧
    (∀ ids1 idf ids2 e,
      elig.map (fun p => p.id) = ids1 ++ idf :: ids2 →
      (∀ i ∈ ids1, env.updateErr i = none) →
      env.updateErr idf = some e →
      (checkLowStock env now force w).state.products
          = setNotifiedAll now ids1 w.products ∧
      (checkLowStock env now force w).state.notifications = w.notifications) := by
  have hlow : ¬ getLowStockProducts c.defaultThreshold w.products = [] := by
    intro h0
    apply helig
    rw [helig_def, h0]
    cases force <;> simp
  constructor
  · intro hall
    have hloop : ∀ w' : World,
        notifyLoop env.updateErr now (elig.map (fun p => p.id)) w'
          = .ok () { w' with
              products := setNotifiedAll now (elig.map (fun p => p.id)) w'.products } :=
      fun w' => notifyLoop_all_ok _ _ _ _ hall
    constructor <;>
      simp [checkLowStock, checkLowStockBody, catchLogged, getAlertConfig,
        sendLowStockAlert, sendEmail, createAlertNotification, DbResult.state,
        h1, hc, hen, hr, hrne, h2, h3, h4, h5, ← helig_def, helig, hlow, hloop]
  · intro ids1 idf ids2 e hsplit hpre hff
    have hloop : ∀ w' : World,
        notifyLoop env.updateErr now (elig.map (fun p => p.id)) w'
          = .error e { w' with products := setNotifiedAll now ids1 w'.products } := by
      intro w'
      rw [hsplit]
      exact notifyLoop_prefix_err _ _ _ _ _ _ _ hpre hff
    constructor <;>
      simp [checkLowStock, checkLowStockBody, catchLogged, getAlertConfig,
        sendLowStockAlert, sendEmail, createAlertNotification, DbResult.state,
        h1, hc, hen, hr, hrne, h2, h3, h4, h5, ← helig_def, helig, hlow, hloop]

/-- C5 amended-claim witness: on the two-product world, the failing update
for `p2` (first in sort order) leaves both products unstamped and the log
empty. -/
theorem checkLowStock_update_loop_behavior_witness :
    (checkLowStock failUpdateEnv sampleTime false twoProductWorld).state.products
        = setNotifiedAll sampleTime [] twoProductWorld.products ∧
    (checkLowStock failUpdateEnv sampleTime false twoProductWorld).state.notifications
        = twoProductWorld.notifications :=
  (checkLowStock_update_loop_behavior failUpdateEnv sampleTime false twoProductWorld
      sampleConfig ["a@x.com"]
      (if false then getLowStockProducts sampleConfig.defaultThreshold twoProductWorld.products
       else (getLowStockProducts sampleConfig.defaultThreshold twoProductWorld.products).filter
         (notifyEligible sampleTime))
      rfl rfl rfl (by decide) rfl rfl rfl rfl rfl rfl (by decide)).2
    [] "p2" ["p1"] "db error" (by decide) (by decide) (by decide)

end KorAlerts
